import Mathlib

/-!
Verification model of the gopy value convertor and handle registry.

Modelled Go sources:
* `convertor.Convert` and `convertor.handleFromPtrGenericStruct`
  (the value marshaller encoding a Go value for the Python side);
* the generated-binding shims `DecRef`, `IncRef`, `NumHandles` of
  `bind/gen.go`, which delegate to the `gopyh` handle registry.

A Go dynamic value (the content of an `interface` argument) is embedded
as an inductive type carrying its runtime kind, the dynamic type name
where the code consults it, and — on the basic kinds — a `named` flag
recording whether the dynamic type is the predeclared type: a Go type
assertion such as `arg.(int)` succeeds only on the predeclared type and
panics on a defined type of the same kind.  Machine addresses are
indices into an explicit heap so that aliasing between the caller and
the registry is expressible.  A run-time panic is an `Except.error`.
-/

namespace GopyModel

/-- Go `reflect.Kind`, with the constructor set of package reflect. -/
inductive Kind where
  | Invalid | Bool | Int | Int8 | Int16 | Int32 | Int64
  | Uint | Uint8 | Uint16 | Uint32 | Uint64 | Uintptr
  | Float32 | Float64 | Complex64 | Complex128
  | Array | Chan | Func | Interface | Map | Ptr | Slice
  | String | Struct | UnsafePointer
  deriving DecidableEq, Repr

/-- `reflect.Kind.String`. -/
def goKindString : Kind → String
  | .Invalid => ("invalid")
  | .Bool => ("bool")
  | .Int => ("int")
  | .Int8 => ("int8")
  | .Int16 => ("int16")
  | .Int32 => ("int32")
  | .Int64 => ("int64")
  | .Uint => ("uint")
  | .Uint8 => ("uint8")
  | .Uint16 => ("uint16")
  | .Uint32 => ("uint32")
  | .Uint64 => ("uint64")
  | .Uintptr => ("uintptr")
  | .Float32 => ("float32")
  | .Float64 => ("float64")
  | .Complex64 => ("complex64")
  | .Complex128 => ("complex128")
  | .Array => ("array")
  | .Chan => ("chan")
  | .Func => ("func")
  | .Interface => ("interface")
  | .Map => ("map")
  | .Ptr => ("ptr")
  | .Slice => ("slice")
  | .String => ("string")
  | .Struct => ("struct")
  | .UnsafePointer => ("unsafe.Pointer")

/-- The kinds for which `Convert`'s switch has no case at all (its
`default` fallthrough).  The dynamic type of an `interface` argument is
never itself an interface type, so `Interface` is not among the kinds a
value can present. -/
inductive OtherKind where
  | Invalid | Int8 | Int16 | Int32 | Int64
  | Uint | Uint8 | Uint16 | Uint32 | Uintptr
  | Float32 | Complex64 | Complex128
  | Array | Chan | Func | Slice | UnsafePointer
  deriving DecidableEq, Repr

def OtherKind.toKind : OtherKind → Kind
  | .Invalid => .Invalid
  | .Int8 => .Int8
  | .Int16 => .Int16
  | .Int32 => .Int32
  | .Int64 => .Int64
  | .Uint => .Uint
  | .Uint8 => .Uint8
  | .Uint16 => .Uint16
  | .Uint32 => .Uint32
  | .Uintptr => .Uintptr
  | .Float32 => .Float32
  | .Complex64 => .Complex64
  | .Complex128 => .Complex128
  | .Array => .Array
  | .Chan => .Chan
  | .Func => .Func
  | .Slice => .Slice
  | .UnsafePointer => .UnsafePointer

/-- A Go dynamic value.  On basic kinds, `named = true` means the
dynamic type is a defined (named) type whose underlying type has this
kind, so the exact-type assertion of `Convert` fails on it.  Float
payloads are carried as opaque bit patterns (`Nat`): the marshaller
copies them without interpretation.  Pointers carry the dynamic type
string (what `%T` prints) and the heap location they reference. -/
inductive GoValue where
  | vbool (named : Bool) (b : Bool)
  | vint (named : Bool) (n : Int)
  | vuint64 (named : Bool) (n : Nat)
  | vfloat64 (named : Bool) (bits : Nat)
  | vstring (named : Bool) (s : String)
  | vstruct (typeName : String) (fields : List (String × GoValue))
  | vmapSI (entries : List (String × GoValue))
  | vmapOther (typeName : String)
  | vptr (typeName : String) (loc : Nat)
  | vother (k : OtherKind) (typeName : String)

/-- `reflect.ValueOf(arg).Kind()`: the kind of the dynamic type. -/
def kindOf : GoValue → Kind
  | .vbool _ _ => .Bool
  | .vint _ _ => .Int
  | .vuint64 _ _ => .Uint64
  | .vfloat64 _ _ => .Float64
  | .vstring _ _ => .String
  | .vstruct _ _ => .Struct
  | .vmapSI _ => .Map
  | .vmapOther _ => .Map
  | .vptr _ _ => .Ptr
  | .vother k _ => k.toKind

/-- The dynamic type string, as `fmt.Sprintf("%T", arg)` or
`reflect.Value.Type().String()` print it.  `Convert` only consults it
on the Struct, Map and Ptr paths and inside `reflect.Value.String`'s
rendering, where the constructors carry the name; the basic-kind
branches return the predeclared spelling and are never consulted. -/
def goTypeString : GoValue → String
  | .vbool _ _ => ("bool")
  | .vint _ _ => ("int")
  | .vuint64 _ _ => ("uint64")
  | .vfloat64 _ _ => ("float64")
  | .vstring _ _ => ("string")
  | .vstruct tn _ => tn
  | .vmapSI _ => ("map[string]interface \x7b\x7d")
  | .vmapOther tn => tn
  | .vptr tn _ => tn
  | .vother _ tn => tn

/-- `reflect.Value.String()`: the string itself on kind String, the
special `<invalid Value>` on the zero Value, and otherwise the
`<T Value>` rendering. -/
def valueString : GoValue → String
  | .vstring _ s => s
  | .vother .Invalid _ => ("<invalid Value>")
  | v => ("<") ++ goTypeString v ++ (" Value>")

/-- Go type assertion `arg.(bool)`: succeeds only on the predeclared
type. -/
def assertBool : GoValue → Option Bool
  | .vbool false b => some b
  | _ => none

/-- Go type assertion `arg.(int)`. -/
def assertInt : GoValue → Option Int
  | .vint false n => some n
  | _ => none

/-- Go type assertion `arg.(uint64)`. -/
def assertUint64 : GoValue → Option Nat
  | .vuint64 false n => some n
  | _ => none

/-- Go type assertion `arg.(float64)`. -/
def assertFloat64 : GoValue → Option Nat
  | .vfloat64 false bits => some bits
  | _ => none

/-- Go type assertion `arg.(string)`. -/
def assertString : GoValue → Option String
  | .vstring false s => some s
  | _ => none

/-- Go type assertion `x, ok := arg.(map[string]interface\x7b\x7d)`
(the comma-ok form used by `Convert`, which does not panic). -/
def assertMapSI : GoValue → Option (List (String × GoValue))
  | .vmapSI es => some es
  | _ => none

/-- The boundary value built for Python: either a primitive encoding
(`Py_BuildValue` calls and the `Py_True`/`Py_False` singletons) or a
construction descriptor carrying a handle
(`Py_BuildGenericStruct` / `Build_Map_string_interface`). -/
inductive PyObject where
  | pyTrue
  | pyFalse
  | pyInt (n : Int)
  | pyUint (n : Nat)
  | pyFloat (bits : Nat)
  | pyString (s : String)
  | pyStructDescriptor (pyClassName : String) (handle : Nat)
  | pyMapDescriptor (handle : Nat)
  deriving DecidableEq, Repr

/-- A Go run-time panic.  `typeAssertion want` is the interface
conversion panic raised by a failed single-valued type assertion
`arg.(want)`. -/
inductive GoPanic where
  | typeAssertion (want : String)
  deriving DecidableEq, Repr

/-- The Go heap fragment relevant to the bridge: an allocation counter
and an association list of cells (most recent write first).  Every
allocated or reserved location is below `next`. -/
structure Heap where
  next : Nat
  cells : List (Nat × GoValue)

def emptyHeap : Heap := { next := 0, cells := [] }

/-- Read a heap cell. -/
def heapRead (hp : Heap) (ℓ : Nat) : Option GoValue :=
  (hp.cells.find? (fun c => c.1 == ℓ)).map (fun c => c.2)

/-- Overwrite a heap cell (shadowing write). -/
def heapWrite (hp : Heap) (ℓ : Nat) (v : GoValue) : Heap :=
  { hp with cells := (ℓ, v) :: hp.cells }

/-- Allocate a fresh cell holding `v`; returns its location. -/
def heapAlloc (hp : Heap) (v : GoValue) : Nat × Heap :=
  (hp.next, { next := hp.next + 1, cells := (hp.next, v) :: hp.cells })

namespace gopyh

/-- Registry entry.  Modelled from the spec: an Entry is
`\x7bhandle, boxedValue, typeName, refcount\x7d`, created by `Register`
with refcount 1. -/
structure RegEntry where
  typeName : String
  value : GoValue
  refcount : Nat

/-- Modelled from the spec: the `gopyh` handle registry (its Go source
is not part of this repository; only its callers in `bind/gen.go` and
the convertor are).  A monotonic 64-bit counter allocates handles —
wraparound is explicitly out of scope — and the table maps live
handles to entries. -/
structure Registry where
  ctr : Nat
  tbl : List (Nat × RegEntry)

def emptyRegistry : Registry := { ctr := 0, tbl := [] }

/-- Modelled from the spec: `Register(typeName, value) -> handle`
allocates a fresh handle from the monotonic counter and stores the
value with refcount 1. -/
def Register (r : Registry) (typeName : String) (v : GoValue) : Nat × Registry :=
  (r.ctr + 1,
    { ctr := r.ctr + 1,
      tbl := (r.ctr + 1, { typeName := typeName, value := v, refcount := 1 }) :: r.tbl })

/-- Modelled from the spec: `IncRef(handle)` increments the refcount of
a live entry; unknown handles are a no-op. -/
def IncRef (r : Registry) (h : Nat) : Registry :=
  { r with
    tbl := r.tbl.map (fun e =>
      if e.1 == h then (e.1, { e.2 with refcount := e.2.refcount + 1 }) else e) }

/-- Modelled from the spec: `DecRef(handle)` decrements the refcount
and removes the entry when it reaches zero; unknown handles are a
no-op. -/
def DecRef (r : Registry) (h : Nat) : Registry :=
  { r with
    tbl := (r.tbl.map (fun e =>
      if e.1 == h then (e.1, { e.2 with refcount := e.2.refcount - 1 }) else e)).filter
        (fun e => e.2.refcount != 0) }

/-- Modelled from the spec: `Lookup(handle)` fetches the live boxed
value; `none` is the `HandleNotFound` failure. -/
def Lookup (r : Registry) (h : Nat) : Option GoValue :=
  (r.tbl.find? (fun e => e.1 == h)).map (fun e => e.2.value)

/-- Modelled from the spec: `NumHandles()` counts currently live
entries. -/
def NumHandles (r : Registry) : Nat :=
  r.tbl.length

end gopyh

/-- `bind/gen.go`: `type CGoHandle C.longlong` (the handle as it
crosses cgo). -/
abbrev CGoHandle := Nat

/-- `bind/gen.go`: `func DecRef(handle CGoHandle)` delegates to
`gopyh.DecRef`. -/
def DecRef (r : gopyh.Registry) (handle : CGoHandle) : gopyh.Registry :=
  gopyh.DecRef r handle

/-- `bind/gen.go`: `func IncRef(handle CGoHandle)` delegates to
`gopyh.IncRef`. -/
def IncRef (r : gopyh.Registry) (handle : CGoHandle) : gopyh.Registry :=
  gopyh.IncRef r handle

/-- `bind/gen.go`: `func NumHandles() int` delegates to
`gopyh.NumHandles`. -/
def NumHandles (r : gopyh.Registry) : Nat :=
  gopyh.NumHandles r

/-- The mutable state a conversion threads: the process-wide handle
registry and the Go heap. -/
structure MState where
  reg : gopyh.Registry
  heap : Heap

def emptyMState : MState := { reg := gopyh.emptyRegistry, heap := emptyHeap }

/-- `convertor.handleFromPtrGenericStruct(p, structType)`:
`CGoHandle(gopyh.Register(structType, p))`. -/
def handleFromPtrGenericStruct (p : GoValue) (structType : String)
    (r : gopyh.Registry) : CGoHandle × gopyh.Registry :=
  gopyh.Register r structType p

/-- `strings.Split`: split a character list at every occurrence of the
separator (structural recursion so that concrete instances reduce). -/
def splitOnChar (sep : Char) : List Char → List (List Char)
  | [] => [[]]
  | c :: cs =>
    match splitOnChar sep cs with
    | [] => [[c]]
    | r :: rs => if c = sep then [] :: r :: rs else (c :: r) :: rs

/-- `strings.Split(objType, ".")`, last element (the Python-side class
name): `pyObjectTypes[len(pyObjectTypes)-1]`. -/
def lastComponent (s : String) : String :=
  String.mk ((splitOnChar ('.') s.data).getLastD [])

/-- The `case reflect.Struct` arm of `Convert`: take the address of the
local parameter `arg` (a fresh `*interface\x7b\x7d` cell holding the
value), register that pointer under the dynamic type name, and return
the construction descriptor. -/
def convertStructCase (arg : GoValue) (st : MState) :
    Except GoPanic (PyObject × MState) :=
  let objType := goTypeString arg
  let alloc := heapAlloc st.heap arg
  let reg := handleFromPtrGenericStruct (GoValue.vptr ("*interface \x7b\x7d") alloc.1)
    objType st.reg
  .ok (PyObject.pyStructDescriptor (lastComponent objType) reg.1,
    { reg := reg.2, heap := alloc.2 })

/-- The `case reflect.Ptr` arm of `Convert`: register the argument (the
interface value holding the caller's pointer) itself — no copy is
taken, so the registry references the caller's instance. -/
def convertPtrCase (arg : GoValue) (st : MState) :
    Except GoPanic (PyObject × MState) :=
  let objType := goTypeString arg
  let reg := handleFromPtrGenericStruct arg objType st.reg
  .ok (PyObject.pyStructDescriptor (lastComponent objType) reg.1,
    { reg := reg.2, heap := st.heap })

/-- `reflect.ValueOf(arg)` as a Go dynamic value: a struct of type
`reflect.Value` wrapping the argument.  This is what the
`case reflect.Interface` arm of `Convert` re-converts. -/
def reflectValueOf (v : GoValue) : GoValue :=
  GoValue.vstruct ("reflect.Value") [(("ptr"), v)]

/-- `convertor.Convert`, translated arm by arm from the source switch
on `reflect.ValueOf(arg).Kind()`.  The single-valued type assertions
of the basic-kind arms panic on defined types of the asserted kind.
The `reflect.Interface` arm calls `Convert(reflect.ValueOf(arg))`;
since `reflect.Value` is a struct, that recursive call always lands in
the Struct arm, which the embedding invokes directly (the lemma
`convert_reflectValueOf` below records the equality). -/
def Convert (arg : GoValue) (st : MState) : Except GoPanic (PyObject × MState) :=
  match kindOf arg with
  | .Int =>
    match assertInt arg with
    | some x => .ok (PyObject.pyInt x, st)
    | none => .error (GoPanic.typeAssertion ("int"))
  | .Uint64 =>
    match assertUint64 arg with
    | some x => .ok (PyObject.pyUint x, st)
    | none => .error (GoPanic.typeAssertion ("uint64"))
  | .Bool =>
    match assertBool arg with
    | some x => .ok (if x then PyObject.pyTrue else PyObject.pyFalse, st)
    | none => .error (GoPanic.typeAssertion ("bool"))
  | .Float64 =>
    match assertFloat64 arg with
    | some x => .ok (PyObject.pyFloat x, st)
    | none => .error (GoPanic.typeAssertion ("float64"))
  | .String =>
    match assertString arg with
    | some x => .ok (PyObject.pyString x, st)
    | none => .error (GoPanic.typeAssertion ("string"))
  | .Interface => convertStructCase (reflectValueOf arg) st
  | .Struct => convertStructCase arg st
  | .Map =>
    let objType := goTypeString arg
    match assertMapSI arg with
    | none =>
      .ok (PyObject.pyString (("Invalid type: ") ++ goKindString (kindOf arg)
        ++ (" value:") ++ valueString arg), st)
    | some x =>
      let alloc := heapAlloc st.heap (GoValue.vmapSI x)
      let reg := handleFromPtrGenericStruct
        (GoValue.vptr (("*") ++ objType) alloc.1) objType st.reg
      .ok (PyObject.pyMapDescriptor reg.1, { reg := reg.2, heap := alloc.2 })
  | .Ptr => convertPtrCase arg st
  | _ =>
    .ok (PyObject.pyString (goKindString (kindOf arg) ++ valueString arg), st)

/-- Modelled from the spec: the generated accessor read path of the
shadow-proxy protocol — look the handle up in the registry and follow
the boxed pointer to the live value (§4.3; the accessor-emission code
is not part of this repository). -/
def readThroughHandle (st : MState) (h : Nat) : Option GoValue :=
  match gopyh.Lookup st.reg h with
  | some (GoValue.vptr _ ℓ) => heapRead st.heap ℓ
  | some v => some v
  | none => none

/-- Runtime A (the caller) mutating one of its own heap cells. -/
def heapWriteState (st : MState) (ℓ : Nat) (v : GoValue) : MState :=
  { st with heap := heapWrite st.heap ℓ v }

/-- Modelled from the spec: the generated accessor write path — look
the handle up and write through the boxed pointer (§4.3). -/
def writeThroughHandle (st : MState) (h : Nat) (v : GoValue) : MState :=
  match gopyh.Lookup st.reg h with
  | some (GoValue.vptr _ ℓ) => heapWriteState st ℓ v
  | _ => st

/-- Modelled from the spec: a proxy read of one key of a boxed
string-keyed map (§4.2: reads proxy through the handle back to the
live boxed value). -/
def proxyMapRead (st : MState) (h : Nat) (k : String) : Option GoValue :=
  match readThroughHandle st h with
  | some (GoValue.vmapSI es) => (es.find? (fun e => e.1 == k)).map (fun e => e.2)
  | _ => none

/-- The Python-side result component of a conversion, when it did not
panic. -/
def pyResultOf (r : Except GoPanic (PyObject × MState)) : Option PyObject :=
  match r with
  | .ok (o, _) => some o
  | .error _ => none

/-- `NumHandles()` observed after a conversion. -/
def numHandlesAfter (r : Except GoPanic (PyObject × MState)) : Option Nat :=
  match r with
  | .ok (_, st) => some (NumHandles st.reg)
  | .error _ => none

/-- The handle carried by a construction descriptor, if the boundary
value is one. -/
def descriptorHandle : PyObject → Option Nat
  | .pyStructDescriptor _ h => some h
  | .pyMapDescriptor h => some h
  | _ => none

/-- Is the boundary value the native 64-bit integer encoding? -/
def isIntEncoding : PyObject → Bool
  | .pyInt _ => true
  | _ => false

/-- The signed-integer kinds of Go. -/
def isSignedIntKind : Kind → Bool
  | .Int => true
  | .Int8 => true
  | .Int16 => true
  | .Int32 => true
  | .Int64 => true
  | _ => false

/-- Run two independent conversions of the same value and return the
pair of handles carried by the two construction descriptors. -/
def handlesOfTwoRuns (v : GoValue) (st : MState) : Option (Nat × Nat) :=
  match Convert v st with
  | .ok (o1, st1) =>
    match Convert v st1 with
    | .ok (o2, _) =>
      match descriptorHandle o1, descriptorHandle o2 with
      | some a, some b => some (a, b)
      | _, _ => none
    | .error _ => none
  | .error _ => none

/-- Modelled from the spec: the refcount of a live entry (a diagnostic
observer of the registry table). -/
def gopyh.refcountOf (r : gopyh.Registry) (h : Nat) : Option Nat :=
  (r.tbl.find? (fun e => e.1 == h)).map (fun e => e.2.refcount)

/-- Opaque float64 payload token standing for the literal `3.14159`
(the marshaller copies float payloads without interpreting them). -/
def float64Token_3_14159 : Nat := 314159

/-- Opaque float64 payload token standing for the literal `2.69`. -/
def float64Token_2_69 : Nat := 269

/-- The heterogeneous test map of the specification:
`\x7b"string": "abcd", "int": 1, "float": 2.69\x7d`. -/
def mapC8 : GoValue :=
  GoValue.vmapSI [(("string"), GoValue.vstring false ("abcd")),
    (("int"), GoValue.vint false 1),
    (("float"), GoValue.vfloat64 false float64Token_2_69)]

/-- The state reached by converting `mapC8` from the empty state. -/
def stateC8 : MState :=
  { reg := { ctr := 1,
             tbl := [(1, { typeName := ("map[string]interface \x7b\x7d"),
                           value := GoValue.vptr ("*map[string]interface \x7b\x7d") 0,
                           refcount := 1 })] },
    heap := { next := 1, cells := [(0, mapC8)] } }

/-- A state in which the caller (Runtime A) owns a freshly allocated
heap cell holding its struct value `cv`; `callerLoc` names that
cell. -/
def callerState (base : MState) (cv : GoValue) : MState :=
  { reg := base.reg, heap := (heapAlloc base.heap cv).2 }

/-- The caller's cell in `callerState`. -/
def callerLoc (base : MState) : Nat := base.heap.next

/-- Scenario C1, step 1: `Register(typeName, 42)` on the fresh
registry (handle, registry-after). -/
def c1AfterRegister : Nat × gopyh.Registry :=
  gopyh.Register gopyh.emptyRegistry ("typeName") (GoValue.vint false 42)

/-- Scenario C1, step 2: after `IncRef(h1)`. -/
def c1AfterIncRef : gopyh.Registry :=
  IncRef c1AfterRegister.2 c1AfterRegister.1

/-- Scenario C1, step 3: after the first `DecRef(h1)`. -/
def c1AfterDecRef1 : gopyh.Registry :=
  DecRef c1AfterIncRef c1AfterRegister.1

/-- Scenario C1, step 4: after the second `DecRef(h1)`. -/
def c1AfterDecRef2 : gopyh.Registry :=
  DecRef c1AfterDecRef1 c1AfterRegister.1

/-- The recursive call of the `reflect.Interface` arm lands in the
Struct arm: `reflect.Value` is a struct. -/
theorem convert_reflectValueOf (v : GoValue) (st : MState) :
    Convert (reflectValueOf v) st = convertStructCase (reflectValueOf v) st := rfl

/-- C1: `Register(typeName, 42)` yields a handle with refcount 1;
`IncRef` raises it to 2; the first `DecRef` lowers it to 1 and
`Lookup` still succeeds; the second `DecRef` removes the entry, so
`Lookup` fails with `HandleNotFound` (`none`) and `NumHandles()` is
0. -/
theorem c1_refcount_lifecycle :
    gopyh.refcountOf c1AfterRegister.2 c1AfterRegister.1 = some 1
      ∧ gopyh.refcountOf c1AfterIncRef c1AfterRegister.1 = some 2
      ∧ gopyh.refcountOf c1AfterDecRef1 c1AfterRegister.1 = some 1
      ∧ gopyh.Lookup c1AfterDecRef1 c1AfterRegister.1 = some (GoValue.vint false 42)
      ∧ gopyh.Lookup c1AfterDecRef2 c1AfterRegister.1 = none
      ∧ NumHandles c1AfterDecRef2 = 0 :=
  ⟨rfl, rfl, rfl, rfl, rfl, rfl⟩

/-- C2 (code bug): `Convert` is not total.  A value of a defined type
whose underlying kind is `int` (e.g. `type MyInt int; MyInt(5)`)
enters the `reflect.Int` case of the switch but the single-valued type
assertion `arg.(int)` fails, raising an interface-conversion panic —
a hard fault on a boundary crossing. -/
theorem c2_named_int_type_assertion_panics :
    Convert (GoValue.vint true 5) emptyMState
      = Except.error (GoPanic.typeAssertion ("int")) := rfl

/-- C4 (counterexample): what the `reflect.Interface` arm converts —
`reflect.ValueOf(arg)` — is not the contained concrete value: for the
wrapped integer `2` it boxes the `reflect.Value` struct through the
struct path (descriptor class `Value`, fresh handle), which differs
from `Convert` applied directly to `2`. -/
theorem c4_counterexample :
    pyResultOf (Convert (reflectValueOf (GoValue.vint false 2)) emptyMState)
        = some (PyObject.pyStructDescriptor ("Value") 1)
      ∧ pyResultOf (Convert (GoValue.vint false 2) emptyMState)
          = some (PyObject.pyInt 2)
      ∧ pyResultOf (Convert (reflectValueOf (GoValue.vint false 2)) emptyMState)
          ≠ pyResultOf (Convert (GoValue.vint false 2) emptyMState) :=
  ⟨rfl, rfl, by decide⟩

/-- C4 (amended): the dynamic kind of a value passed to `Convert` is
never `Interface` (an interface-typed wrapper is passed as its
contained concrete value, for which the claimed equality is
immediate), so the `reflect.Interface` arm is unreachable; and that
arm, applied to a value, does not unwrap it — it boxes the
`reflect.Value` wrapper through the struct path, allocating a fresh
handle under the type name `reflect.Value`. -/
theorem c4_interface_arm_boxes_wrapper (v : GoValue) (st : MState) :
    kindOf v ≠ Kind.Interface
      ∧ Convert (reflectValueOf v) st
          = Except.ok (PyObject.pyStructDescriptor ("Value") (st.reg.ctr + 1),
              { reg := { ctr := st.reg.ctr + 1,
                         tbl := (st.reg.ctr + 1,
                           { typeName := ("reflect.Value"),
                             value := GoValue.vptr ("*interface \x7b\x7d") st.heap.next,
                             refcount := 1 }) :: st.reg.tbl },
                heap := { next := st.heap.next + 1,
                          cells := (st.heap.next, reflectValueOf v) :: st.heap.cells } }) := by
  constructor
  · intro hcontra
    cases v <;> simp [kindOf] at hcontra
    rename_i k tn
    cases k <;> simp [OtherKind.toKind] at hcontra
  · rfl

/-- C5 (counterexample): a signed integer of kind `int64` is not given
the native 64-bit integer encoding: it falls through the switch to the
string fallback. -/
theorem c5_counterexample :
    isSignedIntKind (kindOf (GoValue.vother OtherKind.Int64 ("int64"))) = true
      ∧ pyResultOf (Convert (GoValue.vother OtherKind.Int64 ("int64")) emptyMState)
          = some (PyObject.pyString ("int64<int64 Value>"))
      ∧ (pyResultOf (Convert (GoValue.vother OtherKind.Int64 ("int64")) emptyMState)).map
          isIntEncoding = some false :=
  ⟨rfl, rfl, rfl⟩

/-- C5 (amended): only values of the predeclared type `int` (kind
`Int`) receive the native 64-bit integer encoding; the signed kinds
`int8`, `int16`, `int32` and `int64` have no case in the switch and
degrade to the string fallback. -/
theorem c5_int_kind_only (n : Int) (tn : String) (st : MState) :
    Convert (GoValue.vint false n) st = Except.ok (PyObject.pyInt n, st)
      ∧ Convert (GoValue.vother OtherKind.Int8 tn) st
          = Except.ok (PyObject.pyString
              (("int8") ++ valueString (GoValue.vother OtherKind.Int8 tn)), st)
      ∧ Convert (GoValue.vother OtherKind.Int16 tn) st
          = Except.ok (PyObject.pyString
              (("int16") ++ valueString (GoValue.vother OtherKind.Int16 tn)), st)
      ∧ Convert (GoValue.vother OtherKind.Int32 tn) st
          = Except.ok (PyObject.pyString
              (("int32") ++ valueString (GoValue.vother OtherKind.Int32 tn)), st)
      ∧ Convert (GoValue.vother OtherKind.Int64 tn) st
          = Except.ok (PyObject.pyString
              (("int64") ++ valueString (GoValue.vother OtherKind.Int64 tn)), st) :=
  ⟨rfl, rfl, rfl, rfl, rfl⟩

/-- C6: every value whose kind has no case in the switch (channel,
function, the unhandled numeric widths, slices, arrays, the zero
Value, …) fails closed: `Convert` returns a string payload naming the
shape (`Kind.String()`) followed by reflect's best-effort rendering
(`Value.String()`), leaves the state untouched, and raises no fault. -/
theorem c6_unsupported_shape_fallback (k : OtherKind) (tn : String) (st : MState) :
    Convert (GoValue.vother k tn) st
      = Except.ok (PyObject.pyString
          (goKindString (OtherKind.toKind k) ++ valueString (GoValue.vother k tn)), st) := by
  cases k <;> rfl

/-- C7: the primitive values `true`, `false`, `2`, `uint64(3)`,
`3.14159` and `"sample"` each produce the corresponding primitive
encoding, return the state unchanged (no `Register` call), and leave
`NumHandles()` unchanged. -/
theorem c7_primitive_encodings_no_handles (st : MState) :
    Convert (GoValue.vbool false true) st = Except.ok (PyObject.pyTrue, st)
      ∧ Convert (GoValue.vbool false false) st = Except.ok (PyObject.pyFalse, st)
      ∧ Convert (GoValue.vint false 2) st = Except.ok (PyObject.pyInt 2, st)
      ∧ Convert (GoValue.vuint64 false 3) st = Except.ok (PyObject.pyUint 3, st)
      ∧ Convert (GoValue.vfloat64 false float64Token_3_14159) st
          = Except.ok (PyObject.pyFloat float64Token_3_14159, st)
      ∧ Convert (GoValue.vstring false ("sample")) st
          = Except.ok (PyObject.pyString ("sample"), st)
      ∧ numHandlesAfter (Convert (GoValue.vbool false true) st) = some (NumHandles st.reg)
      ∧ numHandlesAfter (Convert (GoValue.vbool false false) st) = some (NumHandles st.reg)
      ∧ numHandlesAfter (Convert (GoValue.vint false 2) st) = some (NumHandles st.reg)
      ∧ numHandlesAfter (Convert (GoValue.vuint64 false 3) st) = some (NumHandles st.reg)
      ∧ numHandlesAfter (Convert (GoValue.vfloat64 false float64Token_3_14159) st)
          = some (NumHandles st.reg)
      ∧ numHandlesAfter (Convert (GoValue.vstring false ("sample")) st)
          = some (NumHandles st.reg) :=
  ⟨rfl, rfl, rfl, rfl, rfl, rfl, rfl, rfl, rfl, rfl, rfl, rfl⟩

/-- C8: converting the heterogeneous string-keyed map allocates exactly
one handle (`NumHandles` and the allocation counter both go from 0 to
1, so exactly one `Register` call was made), and proxy reads through
that handle observe exactly the three entries under their original
keys. -/
theorem c8_map_single_handle_exact_entries :
    Convert mapC8 emptyMState = Except.ok (PyObject.pyMapDescriptor 1, stateC8)
      ∧ NumHandles stateC8.reg = 1
      ∧ stateC8.reg.ctr = 1
      ∧ readThroughHandle stateC8 1 = some mapC8
      ∧ proxyMapRead stateC8 1 ("string") = some (GoValue.vstring false ("abcd"))
      ∧ proxyMapRead stateC8 1 ("int") = some (GoValue.vint false 1)
      ∧ proxyMapRead stateC8 1 ("float") = some (GoValue.vfloat64 false float64Token_2_69)
      ∧ proxyMapRead stateC8 1 ("uint") = none :=
  ⟨rfl, rfl, rfl, rfl, rfl, rfl, rfl, rfl⟩

/-- C9: two independent conversions of the same composite value — a
struct, a string-keyed heterogeneous map, or a pointer — register it
twice and carry two distinct handles (the monotonic counter advances
on every `Register`; there is no value-identity cache). -/
theorem c9_two_conversions_two_handles (tn ptn : String)
    (f es : List (String × GoValue)) (ℓ : Nat) (st : MState) :
    (handlesOfTwoRuns (GoValue.vstruct tn f) st = some (st.reg.ctr + 1, st.reg.ctr + 2)
        ∧ st.reg.ctr + 1 ≠ st.reg.ctr + 2)
      ∧ (handlesOfTwoRuns (GoValue.vmapSI es) st = some (st.reg.ctr + 1, st.reg.ctr + 2)
        ∧ st.reg.ctr + 1 ≠ st.reg.ctr + 2)
      ∧ (handlesOfTwoRuns (GoValue.vptr ptn ℓ) st = some (st.reg.ctr + 1, st.reg.ctr + 2)
        ∧ st.reg.ctr + 1 ≠ st.reg.ctr + 2) :=
  ⟨⟨rfl, by omega⟩, ⟨rfl, by omega⟩, ⟨rfl, by omega⟩⟩

/-- C10: a map whose concrete type is not
`map[string]interface\x7b\x7d` (e.g. `map[string]string` or an
integer-keyed map) fails the comma-ok assertion and yields the
`Invalid type: ` string payload carrying the kind (`map`) and the
value rendering; the state is returned untouched, so no `Register`
call is made and no handle is allocated. -/
theorem c10_non_si_map_invalid_type (tn : String) (st : MState) :
    Convert (GoValue.vmapOther tn) st
      = Except.ok (PyObject.pyString (("Invalid type: ") ++ ("map") ++ (" value:")
          ++ (("<") ++ tn ++ (" Value>"))), st) := rfl

/-- C3: a struct passed by value is boxed behind a fresh cell holding a
private copy: conversion of the value yields a handle through which
reads see that copy, a later write by the caller to its own cell
(`callerLoc`) is not observable through the handle, and a write
through the handle leaves the caller's cell untouched.  In contrast a
pointer to the caller's cell is boxed as the same referenced instance:
reads through the handle see the caller's cell, the caller's write is
observable through the handle, and a write through the handle is
observable in the caller's cell. -/
theorem c3_value_copy_pointer_alias (tn ptn : String) (f : List (String × GoValue))
    (base : MState) (cv s2 s3 : GoValue) :
    (∀ h st1,
        Convert (GoValue.vstruct tn f) (callerState base cv)
            = Except.ok (PyObject.pyStructDescriptor (lastComponent tn) h, st1) →
          readThroughHandle st1 h = some (GoValue.vstruct tn f)
            ∧ readThroughHandle (heapWriteState st1 (callerLoc base) s2) h
                = some (GoValue.vstruct tn f)
            ∧ heapRead (writeThroughHandle st1 h s3).heap (callerLoc base) = some cv)
      ∧ (∀ h st1,
        Convert (GoValue.vptr ptn (callerLoc base)) (callerState base cv)
            = Except.ok (PyObject.pyStructDescriptor (lastComponent ptn) h, st1) →
          readThroughHandle st1 h = some cv
            ∧ readThroughHandle (heapWriteState st1 (callerLoc base) s2) h = some s2
            ∧ heapRead (writeThroughHandle st1 h s3).heap (callerLoc base) = some s3) := by
  have hb1 : (base.heap.next == base.heap.next + 1) = false := by
    simp only [beq_eq_false_iff_ne]
    omega
  have hb2 : (base.heap.next + 1 == base.heap.next) = false := by
    simp only [beq_eq_false_iff_ne]
    omega
  constructor
  · intro h st1 heq
    rw [show Convert (GoValue.vstruct tn f) (callerState base cv)
        = Except.ok (PyObject.pyStructDescriptor (lastComponent tn) (base.reg.ctr + 1),
            ({ reg := { ctr := base.reg.ctr + 1,
                        tbl := (base.reg.ctr + 1,
                          { typeName := tn,
                            value := GoValue.vptr ("*interface \x7b\x7d") (base.heap.next + 1),
                            refcount := 1 }) :: base.reg.tbl },
               heap := { next := base.heap.next + 2,
                         cells := (base.heap.next + 1, GoValue.vstruct tn f)
                           :: (base.heap.next, cv) :: base.heap.cells } } : MState))
        from rfl] at heq
    injection heq with heq1
    injection heq1 with heqo heqs
    injection heqo with heqc heqh
    subst heqh
    subst heqs
    refine ⟨?_, ?_, ?_⟩
    · simp [readThroughHandle, gopyh.Lookup, heapRead, List.find?]
    · simp [readThroughHandle, gopyh.Lookup, heapRead, heapWriteState, heapWrite,
        callerLoc, List.find?, hb1]
    · simp [writeThroughHandle, gopyh.Lookup, heapRead, heapWriteState, heapWrite,
        callerLoc, List.find?, hb2]
  · intro h st1 heq
    rw [show Convert (GoValue.vptr ptn (callerLoc base)) (callerState base cv)
        = Except.ok (PyObject.pyStructDescriptor (lastComponent ptn) (base.reg.ctr + 1),
            ({ reg := { ctr := base.reg.ctr + 1,
                        tbl := (base.reg.ctr + 1,
                          { typeName := ptn,
                            value := GoValue.vptr ptn (callerLoc base),
                            refcount := 1 }) :: base.reg.tbl },
               heap := { next := base.heap.next + 1,
                         cells := (base.heap.next, cv) :: base.heap.cells } } : MState))
        from rfl] at heq
    injection heq with heq1
    injection heq1 with heqo heqs
    injection heqo with heqc heqh
    subst heqh
    subst heqs
    refine ⟨?_, ?_, ?_⟩
    · simp [readThroughHandle, gopyh.Lookup, heapRead, callerLoc, List.find?]
    · simp [readThroughHandle, gopyh.Lookup, heapRead, heapWriteState, heapWrite,
        callerLoc, List.find?]
    · simp [writeThroughHandle, gopyh.Lookup, heapRead, heapWriteState, heapWrite,
        callerLoc, List.find?]

end GopyModel
